import Mathlib

/-!
Shallow embedding of `src/pages/RoomCreationPage.tsx` (room-creation session).

Modelling conventions:
- A JavaScript number produced by `parseInt` is `Option Int`: `none` models `NaN`,
  `some v` models the integer `v`.  JS comparisons with `NaN` are always false,
  captured by `jsLt` / `jsGt`.
- A nullable string (`gameState.roomId`, the player identity) is `Option String`;
  JS truthiness of such a value (`null`, `undefined` and `""` are falsy) is `jsTruthy`.
- The component's `useState` cells are gathered in `PageState`; the external inputs
  (`connected`, `player`, `gameState.roomId`) are passed as arguments.
- Calls to external collaborators (`createRoom`, `navigate`, clipboard writes,
  `setTimeout`) are returned as data from the modelled handlers.
-/

/-- Recalling that in JS every comparison with NaN is false: `NaN < c` is false. -/
def jsLt : Option Int → Int → Bool
  | none, _ => false
  | some v, c => decide (v < c)

/-- Recalling that in JS every comparison with NaN is false: `NaN > c` is false. -/
def jsGt : Option Int → Int → Bool
  | none, _ => false
  | some v, c => decide (c < v)

/-- JS truthiness of a nullable string: `null` and `""` are falsy. -/
def jsTruthy : Option String → Bool
  | none => false
  | some s => !(s == "")

/-- The string payload of a nullable string (only used under a `jsTruthy` guard). -/
def roomIdText : Option String → String
  | none => ""
  | some s => s

/-- Whitespace as trimmed by `String.prototype.trim` (ASCII subset suffices here). -/
def isWsChar (c : Char) : Bool :=
  c == ' ' || c == '\t' || c == '\n' || c == '\r'

/-- Embeds `String.prototype.trim`: drop whitespace from both ends. -/
def trimJS (s : String) : String :=
  String.mk (((s.toList.dropWhile isWsChar).reverse.dropWhile isWsChar).reverse)

/-- Helper for `splitOnCommaJS`: accumulates the current piece (reversed). -/
def splitCommaAux : List Char → List Char → List String
  | [], acc => [String.mk acc.reverse]
  | c :: cs, acc =>
    if c == ',' then String.mk acc.reverse :: splitCommaAux cs []
    else splitCommaAux cs (c :: acc)

/-- Embeds `String.prototype.split(',')`: `""` yields `[""]`, empty pieces are kept. -/
def splitOnCommaJS (s : String) : List String :=
  splitCommaAux s.toList []

/-- Embeds the word-list computation duplicated at lines 88 and 104-107 of the source:
`settings.customWords.split(',').map(word => word.trim()).filter(Boolean)`.
`filter(Boolean)` keeps exactly the non-empty strings. -/
def parseCustomWords (s : String) : List String :=
  ((splitOnCommaJS s).map trimJS).filter (fun w => !(w == ""))

/-- Numeric value of a decimal digit character. -/
def digitValJS (c : Char) : Nat := c.toNat - '0'.toNat

/-- Accumulates a decimal digit list into a number. -/
def digitsToNat (ds : List Char) : Nat :=
  ds.foldl (fun a c => a * 10 + digitValJS c) 0

/-- Embeds `parseInt(value)` on decimal input: skip leading whitespace, optional
sign, then the longest digit prefix; `none` (NaN) when no digits are found —
in particular `parseIntJS "" = none`.  (The radix-prefix branch of `parseInt`,
e.g. `"0x1A"`, is never produced by a number input and is not modelled.) -/
def parseIntJS (s : String) : Option Int :=
  let cs := s.toList.dropWhile isWsChar
  let signed : Int × List Char :=
    match cs with
    | '-' :: rest => (-1, rest)
    | '+' :: rest => (1, rest)
    | _ => (1, cs)
  let ds := signed.2.takeWhile Char.isDigit
  if ds.isEmpty then none
  else some (signed.1 * (digitsToNat ds : Int))

/-- The editable settings state (lines 12-20 of the source).  The five numeric
fields hold `parseInt` results, so they can be NaN (`none`). -/
structure RoomSettings where
  totalPlayers : Option Int
  drawTime : Option Int
  totalRounds : Option Int
  wordCount : Option Int
  hintsCount : Option Int
  customWordsOnly : Bool
  customWords : String
deriving DecidableEq

/-- The initial settings (lines 12-20): 6, 60, 3, 3, 2, false, `""`. -/
def initialSettings : RoomSettings :=
  { totalPlayers := some 6, drawTime := some 60, totalRounds := some 3,
    wordCount := some 3, hintsCount := some 2,
    customWordsOnly := false, customWords := "" }

/-- The error mapping `Record<string, string>` (line 23).  Only the six keys below
are ever written by `validateSettings`, so the mapping is represented with one
optional message per possible key; `none` means the key is absent. -/
structure ErrorMap where
  totalPlayers : Option String
  drawTime : Option String
  totalRounds : Option String
  wordCount : Option String
  hintsCount : Option String
  customWords : Option String
deriving DecidableEq

/-- The empty error mapping `{}`. -/
def emptyErrors : ErrorMap :=
  { totalPlayers := none, drawTime := none, totalRounds := none,
    wordCount := none, hintsCount := none, customWords := none }

/-- Embeds `Object.keys(newErrors).length === 0`. -/
def ErrorMap.isEmptyMap (m : ErrorMap) : Bool :=
  m.totalPlayers.isNone && m.drawTime.isNone && m.totalRounds.isNone &&
  m.wordCount.isNone && m.hintsCount.isNone && m.customWords.isNone

/-- Embeds `validateSettings` (lines 64-96): the `newErrors` object it builds.
Each guard is a JS comparison, so a NaN field fails every `<` / `>` test and
receives no error. -/
def validateSettings (s : RoomSettings) : ErrorMap :=
  { totalPlayers :=
      if jsLt s.totalPlayers 2 || jsGt s.totalPlayers 20 then
        some "Players must be between 2 and 20" else none
  , drawTime :=
      if jsLt s.drawTime 15 || jsGt s.drawTime 240 then
        some "Draw time must be between 15 and 240 seconds" else none
  , totalRounds :=
      if jsLt s.totalRounds 2 || jsGt s.totalRounds 10 then
        some "Rounds must be between 2 and 10" else none
  , wordCount :=
      if jsLt s.wordCount 1 || jsGt s.wordCount 5 then
        some "Word count must be between 1 and 5" else none
  , hintsCount :=
      if jsLt s.hintsCount 0 || jsGt s.hintsCount 5 then
        some "Hints must be between 0 and 5" else none
  , customWords :=
      if s.customWordsOnly && decide ((parseCustomWords s.customWords).length < 10) then
        some "Please enter at least 10 custom words" else none }

/-- Embeds the boolean returned by `validateSettings` (line 95). -/
def settingsValid (s : RoomSettings) : Bool :=
  ErrorMap.isEmptyMap (validateSettings s)

/-- The field names that appear as `name` attributes in the rendered form. -/
inductive SettingsField
  | totalPlayers | drawTime | totalRounds | wordCount | hintsCount
  | customWordsOnly | customWords
deriving DecidableEq

/-- The five fields rendered as `type="number"` inputs. -/
inductive NumField
  | totalPlayers | drawTime | totalRounds | wordCount | hintsCount
deriving DecidableEq

/-- The field name attached to a numeric input. -/
def NumField.toField : NumField → SettingsField
  | .totalPlayers => .totalPlayers
  | .drawTime => .drawTime
  | .totalRounds => .totalRounds
  | .wordCount => .wordCount
  | .hintsCount => .hintsCount

/-- A change event as delivered to `handleInputChange` (lines 42-62), carrying the
input's `type`, `name` and raw value as the rendered form produces them:
the five numeric inputs, the `customWordsOnly` checkbox, the `customWords`
textarea. -/
inductive InputEvent
  | numberInput (f : NumField) (value : String)
  | checkboxInput (checked : Bool)
  | textInput (value : String)
deriving DecidableEq

/-- The `name` of the input an event comes from. -/
def InputEvent.field : InputEvent → SettingsField
  | .numberInput f _ => f.toField
  | .checkboxInput _ => .customWordsOnly
  | .textInput _ => .customWords

/-- Embeds the `setSettings` update of `handleInputChange` (lines 45-52):
checkbox stores `checked`, a number input stores `parseInt(value)`, the
textarea stores the raw string. -/
def applySet (s : RoomSettings) : InputEvent → RoomSettings
  | .numberInput .totalPlayers v => { s with totalPlayers := parseIntJS v }
  | .numberInput .drawTime v => { s with drawTime := parseIntJS v }
  | .numberInput .totalRounds v => { s with totalRounds := parseIntJS v }
  | .numberInput .wordCount v => { s with wordCount := parseIntJS v }
  | .numberInput .hintsCount v => { s with hintsCount := parseIntJS v }
  | .checkboxInput b => { s with customWordsOnly := b }
  | .textInput v => { s with customWords := v }

/-- Embeds the error-clearing step of `handleInputChange` (lines 55-61):
`delete newErrors[name]`.  (The guard `if (errors[name])` only skips the delete
when the key is already absent, which leaves the mapping unchanged either way.)
No error is ever stored under `customWordsOnly`, so deleting that key is a no-op. -/
def clearError (m : ErrorMap) : SettingsField → ErrorMap
  | .totalPlayers => { m with totalPlayers := none }
  | .drawTime => { m with drawTime := none }
  | .totalRounds => { m with totalRounds := none }
  | .wordCount => { m with wordCount := none }
  | .hintsCount => { m with hintsCount := none }
  | .customWordsOnly => m
  | .customWords => { m with customWords := none }

/-- Embeds `handleInputChange` (lines 42-62) acting on the settings and errors
cells together. -/
def handleInputChange (s : RoomSettings) (m : ErrorMap) (e : InputEvent) :
    RoomSettings × ErrorMap :=
  (applySet s e, clearError m e.field)

/-- A settings-field value, used to state frame properties uniformly. -/
inductive FieldVal
  | numV (v : Option Int)
  | boolV (b : Bool)
  | strV (s : String)
deriving DecidableEq

/-- Projects a settings field by name. -/
def getField (s : RoomSettings) : SettingsField → FieldVal
  | .totalPlayers => .numV s.totalPlayers
  | .drawTime => .numV s.drawTime
  | .totalRounds => .numV s.totalRounds
  | .wordCount => .numV s.wordCount
  | .hintsCount => .numV s.hintsCount
  | .customWordsOnly => .boolV s.customWordsOnly
  | .customWords => .strV s.customWords

/-- Looks up an error-mapping key by field name (`customWordsOnly` never has one). -/
def ErrorMap.get (m : ErrorMap) : SettingsField → Option String
  | .totalPlayers => m.totalPlayers
  | .drawTime => m.drawTime
  | .totalRounds => m.totalRounds
  | .wordCount => m.wordCount
  | .hintsCount => m.hintsCount
  | .customWordsOnly => none
  | .customWords => m.customWords

/-- The component's `useState` cells (lines 11-23). -/
structure PageState where
  isCreating : Bool
  settings : RoomSettings
  copied : Bool
  codeCopied : Bool
  errors : ErrorMap
deriving DecidableEq

/-- The initial component state (lines 11-23). -/
def initialState : PageState :=
  { isCreating := false, settings := initialSettings,
    copied := false, codeCopied := false, errors := emptyErrors }

/-- The payload `createRoom({ ...settings, customWords: customWordsList })`
(lines 109-112): the settings object with `customWords` replaced by the parsed
list.  The numeric fields are forwarded as stored, so a NaN field is forwarded
as NaN. -/
structure CreatePayload where
  totalPlayers : Option Int
  drawTime : Option Int
  totalRounds : Option Int
  wordCount : Option Int
  hintsCount : Option Int
  customWordsOnly : Bool
  customWords : List String
deriving DecidableEq

/-- Embeds `handleCreateRoom` (lines 98-113).  `validateSettings()` runs first and
unconditionally stores its freshly computed mapping via `setErrors` (line 94),
even on the `!connected` early return; on success `isCreating` is set and the
payload is dispatched to `createRoom` (returned as `some payload`). -/
def handleCreateRoom (st : PageState) (connected : Bool) :
    PageState × Option CreatePayload :=
  let newErrors := validateSettings st.settings
  let st1 : PageState := { st with errors := newErrors }
  if !(ErrorMap.isEmptyMap newErrors) || !connected then
    (st1, none)
  else
    ({ st1 with isCreating := true },
     some { totalPlayers := st.settings.totalPlayers,
            drawTime := st.settings.drawTime,
            totalRounds := st.settings.totalRounds,
            wordCount := st.settings.wordCount,
            hintsCount := st.settings.hintsCount,
            customWordsOnly := st.settings.customWordsOnly,
            customWords := parseCustomWords st.settings.customWords })

/-- Embeds the create button's `disabled={isCreating || !connected}` (line 301). -/
def createButtonDisabled (isCreating connected : Bool) : Bool :=
  isCreating || !connected

/-- A click on the create button: a disabled button delivers no event, otherwise
`handleCreateRoom` runs (lines 299-302). -/
def uiCreateClick (st : PageState) (connected : Bool) :
    PageState × Option CreatePayload :=
  if createButtonDisabled st.isCreating connected then (st, none)
  else handleCreateRoom st connected

/-- Embeds the roomId effect (lines 33-40): when `gameState.roomId && isCreating`
is truthy it clears `isCreating` and navigates to the room.  Returns the new
`isCreating` and the navigation target, if any. -/
def roomIdEffect (roomId : Option String) (isCreating : Bool) :
    Bool × Option String :=
  if jsTruthy roomId && isCreating then
    (false, some ("/room/" ++ roomIdText roomId))
  else
    (isCreating, none)

/-- Embeds the player effect (lines 26-30): a missing identity navigates home. -/
def playerEffect (player : Option String) : Option String :=
  if player.isNone then some "/" else none

/-- One commit of the component's effects, run in declaration order: first the
player effect (lines 26-30), then the roomId effect (lines 33-40).  Returns the
new `isCreating` and the navigations issued, in order. -/
def effectsStep (player roomId : Option String) (isCreating : Bool) :
    Bool × List String :=
  let navHome := (playerEffect player).toList
  let step := roomIdEffect roomId isCreating
  (step.1, navHome ++ step.2.toList)

/-- A sequence of deliveries of the roomId effect (re-renders observing shared
state), threading `isCreating` and collecting every navigation issued. -/
def runObservations : Bool → List (Option String) → Bool × List String
  | c, [] => (c, [])
  | c, o :: rest =>
    let step := roomIdEffect o c
    let next := runObservations step.1 rest
    (next.1, step.2.toList ++ next.2)

/-- The two clipboard-feedback flags a scheduled timer callback would reset
(lines 120 and 128). -/
inductive TimerAction
  | resetCopied
  | resetCodeCopied
deriving DecidableEq

/-- A timer scheduled with `setTimeout(callback, delayMs)`. -/
structure TimerTask where
  delayMs : Nat
  action : TimerAction
deriving DecidableEq

/-- Embeds `copyRoomLink` (lines 115-122): under a truthy `roomId`, write the room
link to the clipboard, set `copied`, and schedule a 2000 ms reset.  Returns the
new state, the pending-timer pool, and the clipboard text written, if any. -/
def copyRoomLink (origin : String) (roomId : Option String) (st : PageState)
    (pending : List TimerTask) : PageState × List TimerTask × Option String :=
  if jsTruthy roomId then
    ({ st with copied := true },
     pending ++ [{ delayMs := 2000, action := TimerAction.resetCopied }],
     some (origin ++ "/room/" ++ roomIdText roomId))
  else
    (st, pending, none)

/-- Embeds `copyRoomCode` (lines 124-130): under a truthy `roomId`, write the code
to the clipboard, set `codeCopied`, and schedule a 2000 ms reset. -/
def copyRoomCode (roomId : Option String) (st : PageState)
    (pending : List TimerTask) : PageState × List TimerTask × Option String :=
  if jsTruthy roomId then
    ({ st with codeCopied := true },
     pending ++ [{ delayMs := 2000, action := TimerAction.resetCodeCopied }],
     some (roomIdText roomId))
  else
    (st, pending, none)

/-- The timer cancellations the component registers for teardown.  Both `useEffect`
callbacks (lines 26-30 and 33-40) return no cleanup function, the `setTimeout`
handles of lines 120 and 128 are discarded, and `clearTimeout` appears nowhere in
the file — so no cancellation is ever registered. -/
def registeredTimerCancellations : List TimerAction := []

/-- Teardown of the component: the pending timers that survive are those whose
action has no registered cancellation. -/
def teardownStep (pending : List TimerTask) : List TimerTask :=
  pending.filter (fun t => !(registeredTimerCancellations.contains t.action))

/-- A lemma used below: an if-then-else storing an optional message is `some`
exactly when its condition holds. -/
theorem ite_some_msg_isSome (c : Bool) (m : String) :
    ((if c then some m else none : Option String).isSome) = c := by
  cases c <;> simp

/-- A lemma used below: the error mapping is empty as a Bool iff it equals `{}`. -/
theorem isEmptyMap_iff_emptyErrors (m : ErrorMap) :
    ErrorMap.isEmptyMap m = true ↔ m = emptyErrors := by
  cases m with
  | mk tp dt tr wc hc cw =>
    simp [ErrorMap.isEmptyMap, emptyErrors, Option.isNone_iff_eq_none, ErrorMap.mk.injEq,
      and_assoc]

/-- A lemma used below: the roomId effect does nothing from the Idle phase. -/
theorem roomIdEffect_idle (rid : Option String) :
    roomIdEffect rid false = (false, none) := by
  simp [roomIdEffect]

/-- A lemma used below: the roomId effect fires from AwaitingConfirmation on a
truthy roomId. -/
theorem roomIdEffect_fires (rid : Option String) (h : jsTruthy rid = true) :
    roomIdEffect rid true = (false, some ("/room/" ++ roomIdText rid)) := by
  simp [roomIdEffect, h]

/-- A lemma used below: from the Idle phase, no observation sequence ever
produces a navigation. -/
theorem runObservations_idle (obs : List (Option String)) :
    runObservations false obs = (false, []) := by
  induction obs with
  | nil => rfl
  | cons o rest ih =>
    simp [runObservations, roomIdEffect_idle, ih]

/-- A lemma used below: from AwaitingConfirmation, the number of navigations
produced by an observation sequence is 1 if some observation is truthy, else 0. -/
theorem runObservations_await_length (obs : List (Option String)) :
    ((runObservations true obs).2).length =
      (if obs.any (fun o => jsTruthy o) then 1 else 0) := by
  induction obs with
  | nil => rfl
  | cons o rest ih =>
    by_cases h : jsTruthy o = true
    · simp [runObservations, roomIdEffect_fires o h, runObservations_idle, h]
    · have h' : jsTruthy o = false := by
        cases hx : jsTruthy o
        · rfl
        · exact absurd hx h
      simp [runObservations, roomIdEffect, h', ih]

/-- C10: the initial state of the session is well-formed: the phase starts Idle
(`isCreating = false`), the error mapping starts empty, both clipboard flags
start false, and the default settings (6, 60, 3, 3, 2, false, "") pass every
validation rule, so creation is possible without any edit — `handleCreateRoom`
on the untouched defaults dispatches a creation request. -/
theorem c10_initial_state_wellformed :
    initialState.isCreating = false ∧
    initialState.errors = emptyErrors ∧
    initialState.copied = false ∧
    initialState.codeCopied = false ∧
    validateSettings initialSettings = emptyErrors ∧
    settingsValid initialSettings = true ∧
    (handleCreateRoom initialState true).2 =
      some { totalPlayers := some 6, drawTime := some 60, totalRounds := some 3,
             wordCount := some 3, hintsCount := some 2, customWordsOnly := false,
             customWords := [] } := by
  refine ⟨rfl, rfl, rfl, rfl, by decide, by decide, by decide⟩

/-- The settings obtained from the defaults by editing the `totalPlayers` number
input to the empty string: `parseInt("")` is NaN. -/
def nanSettings : RoomSettings :=
  applySet initialSettings (InputEvent.numberInput NumField.totalPlayers "")

/-- The page state holding `nanSettings`. -/
def nanState : PageState := { initialState with settings := nanSettings }

/-- C2 (evaluation at the failing input): clearing the `totalPlayers` input
coerces it to NaN (`parseIntJS "" = none`), yet `validateSettings` reports no
error — every JS comparison with NaN is false, so the range guards fail open —
and `handleCreateRoom` with the connection up dispatches a creation request
whose `totalPlayers` field is NaN.  This contradicts the claim that a NaN
numeric field always fails validation and is never dispatched. -/
theorem c2_nan_accepted :
    parseIntJS "" = none ∧
    nanSettings.totalPlayers = none ∧
    validateSettings nanSettings = emptyErrors ∧
    settingsValid nanSettings = true ∧
    Option.map CreatePayload.totalPlayers (handleCreateRoom nanState true).2 =
      some none := by
  refine ⟨rfl, rfl, by decide, by decide, by decide⟩

/-- C7 (evaluation at the failing input): a copy action schedules a 2000 ms
reset timer, but the component registers no cancellation — the `setTimeout`
handles are discarded, no effect returns a cleanup, and `clearTimeout` appears
nowhere — so the pending timer survives teardown, contradicting the claim that
pending clipboard timers are cancelled on abandonment. -/
theorem c7_timer_never_cancelled :
    (copyRoomLink "https://example.test" (some "ABCD12") initialState []).2.1 =
      [{ delayMs := 2000, action := TimerAction.resetCopied }] ∧
    (copyRoomCode (some "ABCD12") initialState []).2.1 =
      [{ delayMs := 2000, action := TimerAction.resetCodeCopied }] ∧
    registeredTimerCancellations = [] ∧
    teardownStep [{ delayMs := 2000, action := TimerAction.resetCopied }] =
      [{ delayMs := 2000, action := TimerAction.resetCopied }] ∧
    teardownStep [{ delayMs := 2000, action := TimerAction.resetCopied }] ≠ [] := by
  refine ⟨by decide, by decide, rfl, by decide, by decide⟩

/-- C1 (counterexample): the claim says navigation triggers exactly when the
shared roomId is non-null and the phase is AwaitingConfirmation.  But the guard
at line 34 tests JS truthiness, so the non-null roomId `""` observed while
`isCreating = true` triggers no navigation and no phase reset. -/
theorem c1_counterexample :
    (some "" : Option String) ≠ none ∧
    roomIdEffect (some "") true = (true, none) := by
  refine ⟨by decide, by decide⟩

/-- C1 (amended): navigation triggers exactly when the shared roomId is truthy
(non-null and non-empty) and the phase is AwaitingConfirmation; a firing
observation navigates to `/room/{roomId}` and resets the phase, the Idle phase
never navigates, and over any sequence of observations from
AwaitingConfirmation exactly one navigation occurs when some observed roomId is
truthy (zero otherwise), while from Idle no navigation ever occurs. -/
theorem c1_navigation_guard :
    (∀ (rid : Option String) (c : Bool),
        ((roomIdEffect rid c).2).isSome = (jsTruthy rid && c)) ∧
    (∀ s : String, s ≠ "" →
        roomIdEffect (some s) true = (false, some ("/room/" ++ s))) ∧
    (∀ rid : Option String, roomIdEffect rid false = (false, none)) ∧
    (∀ obs : List (Option String),
        ((runObservations true obs).2).length =
          (if obs.any (fun o => jsTruthy o) then 1 else 0)) ∧
    (∀ obs : List (Option String), runObservations false obs = (false, [])) := by
  refine ⟨?_, ?_, roomIdEffect_idle, runObservations_await_length, runObservations_idle⟩
  · intro rid c
    by_cases h : (jsTruthy rid && c) = true
    · simp [roomIdEffect, h]
    · simp [roomIdEffect, h]
  · intro s hs
    exact roomIdEffect_fires (some s) (by simp [jsTruthy, hs])

/-- C1 (witness): the amended guard applied at the concrete confirmed roomId
`"ABCD12"`. -/
theorem c1_witness :
    roomIdEffect (some "ABCD12") true = (false, some "/room/ABCD12") :=
  c1_navigation_guard.2.1 "ABCD12" (by decide)

/-- C3: for integer-valued fields, `validateSettings` reports an error on a
numeric field exactly when the value is outside its inclusive range
(`totalPlayers` [2,20], `drawTime` [15,240], `totalRounds` [2,10], `wordCount`
[1,5], `hintsCount` [0,5]), and on `customWords` exactly when
`customWordsOnly` is true and fewer than 10 words parse.  Each equivalence
holds with every other field arbitrary, so the rules are independent; and the
boolean result is true iff the error mapping is empty. -/
theorem c3_validate_ranges :
    (∀ (s : RoomSettings) (v : Int), s.totalPlayers = some v →
        ((validateSettings s).totalPlayers.isSome = true ↔ (v < 2 ∨ 20 < v))) ∧
    (∀ (s : RoomSettings) (v : Int), s.drawTime = some v →
        ((validateSettings s).drawTime.isSome = true ↔ (v < 15 ∨ 240 < v))) ∧
    (∀ (s : RoomSettings) (v : Int), s.totalRounds = some v →
        ((validateSettings s).totalRounds.isSome = true ↔ (v < 2 ∨ 10 < v))) ∧
    (∀ (s : RoomSettings) (v : Int), s.wordCount = some v →
        ((validateSettings s).wordCount.isSome = true ↔ (v < 1 ∨ 5 < v))) ∧
    (∀ (s : RoomSettings) (v : Int), s.hintsCount = some v →
        ((validateSettings s).hintsCount.isSome = true ↔ (v < 0 ∨ 5 < v))) ∧
    (∀ s : RoomSettings,
        ((validateSettings s).customWords.isSome = true ↔
          (s.customWordsOnly = true ∧ (parseCustomWords s.customWords).length < 10))) ∧
    (∀ s : RoomSettings, settingsValid s = true ↔ validateSettings s = emptyErrors) := by
  refine ⟨?_, ?_, ?_, ?_, ?_, ?_, ?_⟩
  · intro s v h
    simp [validateSettings, h, jsLt, jsGt, ite_some_msg_isSome]
  · intro s v h
    simp [validateSettings, h, jsLt, jsGt, ite_some_msg_isSome]
  · intro s v h
    simp [validateSettings, h, jsLt, jsGt, ite_some_msg_isSome]
  · intro s v h
    simp [validateSettings, h, jsLt, jsGt, ite_some_msg_isSome]
  · intro s v h
    simp [validateSettings, h, jsLt, jsGt, ite_some_msg_isSome]
  · intro s
    simp [validateSettings, ite_some_msg_isSome]
  · intro s
    simp [settingsValid, isEmptyMap_iff_emptyErrors]

/-- C3 (witness): the field rule applied at the concrete out-of-range value 21
and the valid-iff-empty rule applied at the defaults. -/
theorem c3_witness :
    ((validateSettings { initialSettings with totalPlayers := some 21 }).totalPlayers.isSome
        = true ↔ ((21 : Int) < 2 ∨ 20 < (21 : Int))) ∧
    (settingsValid initialSettings = true ↔ validateSettings initialSettings = emptyErrors) :=
  ⟨c3_validate_ranges.1 { initialSettings with totalPlayers := some 21 } 21 rfl,
   c3_validate_ranges.2.2.2.2.2.2 initialSettings⟩

/-- C4: every dispatched creation payload carries exactly the parsed word list of
the raw `customWords` text; parsing splits on commas, trims each piece, drops
empty pieces, preserves order and performs no deduplication, as the two
concrete evaluations show. -/
theorem c4_custom_words_payload :
    (∀ (st : PageState) (connected : Bool) (p : CreatePayload),
        (handleCreateRoom st connected).2 = some p →
        p.customWords = parseCustomWords st.settings.customWords) ∧
    parseCustomWords "a, b ,c,,d" = ["a", "b", "c", "d"] ∧
    parseCustomWords "cat, dog ,cat" = ["cat", "dog", "cat"] := by
  refine ⟨?_, by decide, by decide⟩
  intro st c p h
  by_cases hc : (!(ErrorMap.isEmptyMap (validateSettings st.settings)) || !c) = true
  · simp [handleCreateRoom, hc] at h
  · simp [handleCreateRoom, hc] at h
    rw [← h]

/-- The page state whose raw custom words are the spec's example input. -/
def sampleWordsState : PageState :=
  { initialState with settings := { initialSettings with customWords := "a, b ,c,,d" } }

/-- C4 (witness): the payload link applied at a concrete dispatching state. -/
theorem c4_witness :
    ∃ p : CreatePayload, (handleCreateRoom sampleWordsState true).2 = some p ∧
      p.customWords = parseCustomWords "a, b ,c,,d" :=
  ⟨{ totalPlayers := some 6, drawTime := some 60, totalRounds := some 3,
     wordCount := some 3, hintsCount := some 2, customWordsOnly := false,
     customWords := ["a", "b", "c", "d"] },
   by decide,
   c4_custom_words_payload.1 sampleWordsState true _ (by decide)⟩

/-- A state with invalid settings and a still-empty error mapping. -/
def disconnectedState : PageState :=
  { initialState with settings := { initialSettings with totalPlayers := some 0 } }

/-- C5 (counterexample): the claim says triggering create while disconnected
changes no state at all.  But `handleCreateRoom` evaluates `validateSettings()`
— which stores its freshly computed mapping — before testing `connected`, so
from a disconnected state with out-of-range `totalPlayers` and an empty error
mapping, the call dispatches nothing yet changes the state: the error mapping
gains an entry. -/
theorem c5_counterexample :
    (handleCreateRoom disconnectedState false).2 = none ∧
    (handleCreateRoom disconnectedState false).1 ≠ disconnectedState := by
  refine ⟨by decide, by decide⟩

/-- C5 (amended): triggering create while disconnected dispatches no creation
request and leaves `isCreating` (the phase), the settings and both clipboard
flags unchanged; the error mapping, however, is rewritten to the freshly
computed validation result, because validation runs before the connection test. -/
theorem c5_disconnected_no_request :
    ∀ st : PageState,
      (handleCreateRoom st false).2 = none ∧
      (handleCreateRoom st false).1.isCreating = st.isCreating ∧
      (handleCreateRoom st false).1.settings = st.settings ∧
      (handleCreateRoom st false).1.copied = st.copied ∧
      (handleCreateRoom st false).1.codeCopied = st.codeCopied ∧
      (handleCreateRoom st false).1.errors = validateSettings st.settings := by
  intro st
  simp [handleCreateRoom]

/-- C6 (counterexample): the claim says that when the identity is lost while
AwaitingConfirmation, no navigation to a room occurs even if a non-null roomId
is simultaneously observed.  But the roomId effect does not check the player,
so a commit observing both the lost identity and a confirmed roomId issues the
home redirect and then still navigates to the room. -/
theorem c6_counterexample :
    (effectsStep none (some "ABCD12") true).2 = ["/", "/room/ABCD12"] ∧
    "/room/ABCD12" ∈ (effectsStep none (some "ABCD12") true).2 := by
  refine ⟨by decide, by decide⟩

/-- C6 (amended): if the identity becomes absent while AwaitingConfirmation and
the roomId observed in the same commit is not truthy, the effects issue exactly
the redirect out of the flow (`"/"`) and no room navigation; only a truthy
roomId arriving in the very same commit as the identity loss can still
navigate to the room, because the roomId effect does not re-check the
identity. -/
theorem c6_abandon_redirect :
    ∀ rid : Option String, jsTruthy rid = false →
      effectsStep none rid true = (true, ["/"]) := by
  intro rid h
  simp [effectsStep, playerEffect, roomIdEffect, h]

/-- C6 (witness): abandonment applied at the concrete observation with no
confirmed roomId. -/
theorem c6_witness : effectsStep none none true = (true, ["/"]) :=
  c6_abandon_redirect none rfl

/-- A page state already awaiting confirmation. -/
def creatingState : PageState := { initialState with isCreating := true }

/-- C8: while AwaitingConfirmation (`isCreating = true`) a click on the create
button is a no-op issuing no second creation request, and the guarantee comes
from the disabled trigger — `disabled = isCreating || !connected` holds whenever
`isCreating` is true or the connection is down — not from the handler: invoked
directly while `isCreating` is true with valid settings and the connection up,
`handleCreateRoom` would dispatch again. -/
theorem c8_no_reentry :
    (∀ (st : PageState) (connected : Bool), st.isCreating = true →
        uiCreateClick st connected = (st, none)) ∧
    (∀ (isCreating connected : Bool), isCreating = true ∨ connected = false →
        createButtonDisabled isCreating connected = true) ∧
    (handleCreateRoom creatingState true).2 ≠ none := by
  refine ⟨?_, ?_, by decide⟩
  · intro st c h
    simp [uiCreateClick, createButtonDisabled, h]
  · rintro c conn (h | h) <;> simp [createButtonDisabled, h]

/-- C8 (witness): the no-op click and the disabled predicate at concrete inputs. -/
theorem c8_witness :
    uiCreateClick creatingState true = (creatingState, none) ∧
    createButtonDisabled true true = true :=
  ⟨c8_no_reentry.1 creatingState true rfl,
   c8_no_reentry.2.1 true true (Or.inl rfl)⟩

/-- C9: editing a field updates only that field of the settings and removes only
that field's entry from the error mapping — the edited field's error is gone,
and every other field's value and error message are unchanged. -/
theorem c9_edit_frame :
    ∀ (s : RoomSettings) (m : ErrorMap) (e : InputEvent),
      (ErrorMap.get (handleInputChange s m e).2 e.field = none) ∧
      (∀ f : SettingsField, f ≠ e.field →
        getField (handleInputChange s m e).1 f = getField s f ∧
        ErrorMap.get (handleInputChange s m e).2 f = ErrorMap.get m f) := by
  intro s m e
  constructor
  · cases e with
    | numberInput nf v =>
      cases nf <;>
        simp [handleInputChange, InputEvent.field, NumField.toField, clearError, ErrorMap.get]
    | checkboxInput b =>
      simp [handleInputChange, InputEvent.field, clearError, ErrorMap.get]
    | textInput v =>
      simp [handleInputChange, InputEvent.field, clearError, ErrorMap.get]
  · intro f hf
    cases e with
    | numberInput nf v =>
      cases nf <;> cases f <;>
        simp_all [handleInputChange, InputEvent.field, NumField.toField, clearError,
          ErrorMap.get, applySet, getField]
    | checkboxInput b =>
      cases f <;>
        simp_all [handleInputChange, InputEvent.field, clearError,
          ErrorMap.get, applySet, getField]
    | textInput v =>
      cases f <;>
        simp_all [handleInputChange, InputEvent.field, clearError,
          ErrorMap.get, applySet, getField]

/-- An error mapping with two entries, used to exercise the frame property. -/
def exampleErrors : ErrorMap :=
  { totalPlayers := some "Players must be between 2 and 20",
    drawTime := some "Draw time must be between 15 and 240 seconds",
    totalRounds := none, wordCount := none, hintsCount := none, customWords := none }

/-- C9 (witness): editing `totalPlayers` clears its error while `drawTime` keeps
both its value and its error. -/
theorem c9_witness :
    (ErrorMap.get
        (handleInputChange initialSettings exampleErrors
          (InputEvent.numberInput NumField.totalPlayers "7")).2
        SettingsField.totalPlayers = none) ∧
    (getField
        (handleInputChange initialSettings exampleErrors
          (InputEvent.numberInput NumField.totalPlayers "7")).1
        SettingsField.drawTime = getField initialSettings SettingsField.drawTime ∧
     ErrorMap.get
        (handleInputChange initialSettings exampleErrors
          (InputEvent.numberInput NumField.totalPlayers "7")).2
        SettingsField.drawTime = ErrorMap.get exampleErrors SettingsField.drawTime) :=
  ⟨(c9_edit_frame initialSettings exampleErrors
      (InputEvent.numberInput NumField.totalPlayers "7")).1,
   (c9_edit_frame initialSettings exampleErrors
      (InputEvent.numberInput NumField.totalPlayers "7")).2
      SettingsField.drawTime (by decide)⟩
